import Mathlib

/-!
Verification of the `TypedSideOffsets2D` value type from `src/side_offsets.rs`
of the euclid geometry library: a four-sided offset aggregate (top, right,
bottom, left) generic over a scalar type `T` and a phantom unit tag `U`.

The `Length` wrapper, the `UnknownUnit` marker and the `Zero` capability are
external collaborators of this file (they live in other modules of the
repository); they are modelled here from their documented interface.
The scalar addition of `T` is modelled by Lean's `Add` class; a possibly
faulting scalar addition (overflow panic of a fixed-width type) is modelled
as an `Option`-valued addition in the `Checked` variants.
-/

/-- Modelled from the spec: the zero-sized "unknown unit" marker type used by
the default alias `SideOffsets2D` (module `UnknownUnit`, not under `src/`). -/
structure UnknownUnit where

/-- Modelled from the spec: the unit-tagged length wrapper (module
`length::Length`, not under `src/`), pairing a raw scalar with a phantom unit
tag, exposing `new(scalar) -> Length` and `get(self) -> scalar`. -/
structure Length (T : Type) (U : Type) where
  value : T

/-- Modelled from the spec: `Length::new`, wrapping a raw scalar. -/
def Length.new {T U : Type} (x : T) : Length T U :=
  ⟨x⟩

/-- Modelled from the spec: `Length::get`, unwrapping to the raw scalar. -/
def Length.get {T U : Type} (l : Length T U) : T :=
  l.value

/-- The aggregate of four independent side offsets from `src/side_offsets.rs`;
`U` is the compile-time-only unit tag (it stores no data). -/
structure TypedSideOffsets2D (T : Type) (U : Type) where
  top : T
  right : T
  bottom : T
  left : T
deriving DecidableEq

/-- The default side offset type with no unit (`SideOffsets2D<T>`). -/
def SideOffsets2D (T : Type) : Type :=
  TypedSideOffsets2D T UnknownUnit

namespace TypedSideOffsets2D

/-- `TypedSideOffsets2D::new`: takes one value per side, each already converted
into a `Length` by the caller (the Rust signature takes `N : Into<Length<T, U>>`;
a raw scalar argument reaches this point as `Length.new` of that scalar), and
unwraps each to its raw scalar with `get`. -/
def new {T U : Type} (top right bottom left : Length T U) : TypedSideOffsets2D T U :=
  ⟨top.get, right.get, bottom.get, left.get⟩

/-- `top_typed`: `self.top` re-wrapped as a typed `Length`. -/
def top_typed {T U : Type} (s : TypedSideOffsets2D T U) : Length T U :=
  Length.new s.top

/-- `right_typed`: `self.right` re-wrapped as a typed `Length`. -/
def right_typed {T U : Type} (s : TypedSideOffsets2D T U) : Length T U :=
  Length.new s.right

/-- `bottom_typed`: `self.bottom` re-wrapped as a typed `Length`. -/
def bottom_typed {T U : Type} (s : TypedSideOffsets2D T U) : Length T U :=
  Length.new s.bottom

/-- `left_typed`: `self.left` re-wrapped as a typed `Length`. -/
def left_typed {T U : Type} (s : TypedSideOffsets2D T U) : Length T U :=
  Length.new s.left

/-- `new_all_same`: unwraps the single argument once, then calls `new` with the
same raw value for all four sides. -/
def new_all_same {T U : Type} (all : Length T U) : TypedSideOffsets2D T U :=
  let a := all.get
  new (Length.new a) (Length.new a) (Length.new a) (Length.new a)

/-- `horizontal`: `self.left + self.right`. -/
def horizontal {T U : Type} [Add T] (s : TypedSideOffsets2D T U) : T :=
  s.left + s.right

/-- `vertical`: `self.top + self.bottom`. -/
def vertical {T U : Type} [Add T] (s : TypedSideOffsets2D T U) : T :=
  s.top + s.bottom

/-- `horizontal_typed`: the horizontal sum wrapped as a `Length`. -/
def horizontal_typed {T U : Type} [Add T] (s : TypedSideOffsets2D T U) : Length T U :=
  Length.new s.horizontal

/-- `vertical_typed`: the vertical sum wrapped as a `Length`. -/
def vertical_typed {T U : Type} [Add T] (s : TypedSideOffsets2D T U) : Length T U :=
  Length.new s.vertical

/-- `impl Add for TypedSideOffsets2D`: elementwise addition, built through
`new` on the four scalar sums (each raw sum converted by `Into` into a
`Length`, exactly as in the source). -/
instance instAdd {T U : Type} [Add T] : Add (TypedSideOffsets2D T U) :=
  ⟨fun s o =>
    new (Length.new (s.top + o.top)) (Length.new (s.right + o.right))
      (Length.new (s.bottom + o.bottom)) (Length.new (s.left + o.left))⟩

/-- `zero`: all four sides set to the scalar type's zero, via `new`. -/
def zero {T U : Type} [Zero T] : TypedSideOffsets2D T U :=
  new (Length.new 0) (Length.new 0) (Length.new 0) (Length.new 0)

/-- `impl fmt::Debug`: writes `({:?},{:?},{:?},{:?})` over top, right, bottom,
left, given the scalar type's own debug rendering `dbg`. -/
def fmtDebug {T U : Type} (dbg : T → String) (s : TypedSideOffsets2D T U) : String :=
  "(" ++ dbg s.top ++ "," ++ dbg s.right ++ "," ++ dbg s.bottom ++ "," ++ dbg s.left ++ ")"

/-- `horizontal` over a possibly faulting scalar addition `addf` (the fault of
a scalar addition, e.g. an overflow panic, is modelled as `none`): the body
`self.left + self.right` performs exactly one scalar addition. -/
def horizontalChecked {T U : Type} (addf : T → T → Option T)
    (s : TypedSideOffsets2D T U) : Option T :=
  addf s.left s.right

/-- `vertical` over a possibly faulting scalar addition. -/
def verticalChecked {T U : Type} (addf : T → T → Option T)
    (s : TypedSideOffsets2D T U) : Option T :=
  addf s.top s.bottom

/-- Aggregate addition over a possibly faulting scalar addition: the four
scalar sums are computed in argument order (top, right, bottom, left) and any
scalar fault aborts the whole operation, as a panic would in the source. -/
def addChecked {T U : Type} (addf : T → T → Option T)
    (s o : TypedSideOffsets2D T U) : Option (TypedSideOffsets2D T U) := do
  let t ← addf s.top o.top
  let r ← addf s.right o.right
  let b ← addf s.bottom o.bottom
  let l ← addf s.left o.left
  pure (new (Length.new t) (Length.new r) (Length.new b) (Length.new l))

end TypedSideOffsets2D

/-- Unfolding lemma: aggregate addition is elementwise. -/
theorem TypedSideOffsets2D.add_def {T U : Type} [Add T]
    (x y : TypedSideOffsets2D T U) :
    x + y = ⟨x.top + y.top, x.right + y.right, x.bottom + y.bottom, x.left + y.left⟩ :=
  rfl

/-- Two aggregates are equal iff their four fields are. -/
theorem TypedSideOffsets2D.ext_iff4 {T U : Type} (x y : TypedSideOffsets2D T U) :
    x = y ↔ x.top = y.top ∧ x.right = y.right ∧ x.bottom = y.bottom ∧ x.left = y.left := by
  constructor
  · rintro rfl
    exact ⟨rfl, rfl, rfl, rfl⟩
  · obtain ⟨xt, xr, xb, xl⟩ := x
    obtain ⟨yt, yr, yb, yl⟩ := y
    rintro ⟨h1, h2, h3, h4⟩
    cases h1
    cases h2
    cases h3
    cases h4
    rfl

/-- C1: `new(a, b, c, d)` stores `a` in `top`, `b` in `right`, `c` in `bottom`
and `d` in `left`, both when the arguments are raw scalars (converted through
`Length.new` by the implicit conversion) and when they are already unit-tagged
`Length` values, which are unwrapped to their raw scalars. -/
theorem C1_new_fields {T U : Type} (a b c d : T) (la lb lc ld : Length T U) :
    (TypedSideOffsets2D.new (Length.new a) (Length.new b) (Length.new c)
        (Length.new d) : TypedSideOffsets2D T U).top = a ∧
    (TypedSideOffsets2D.new (Length.new a) (Length.new b) (Length.new c)
        (Length.new d) : TypedSideOffsets2D T U).right = b ∧
    (TypedSideOffsets2D.new (Length.new a) (Length.new b) (Length.new c)
        (Length.new d) : TypedSideOffsets2D T U).bottom = c ∧
    (TypedSideOffsets2D.new (Length.new a) (Length.new b) (Length.new c)
        (Length.new d) : TypedSideOffsets2D T U).left = d ∧
    (TypedSideOffsets2D.new la lb lc ld).top = la.get ∧
    (TypedSideOffsets2D.new la lb lc ld).right = lb.get ∧
    (TypedSideOffsets2D.new la lb lc ld).bottom = lc.get ∧
    (TypedSideOffsets2D.new la lb lc ld).left = ld.get :=
  ⟨rfl, rfl, rfl, rfl, rfl, rfl, rfl, rfl⟩

/-- C2: for every aggregate `X`, `X.horizontal() = X.left + X.right` and
`X.vertical() = X.top + X.bottom`. -/
theorem C2_horizontal_vertical {T U : Type} [Add T] (x : TypedSideOffsets2D T U) :
    x.horizontal = x.left + x.right ∧ x.vertical = x.top + x.bottom :=
  ⟨rfl, rfl⟩

/-- C3: aggregate addition is elementwise on all four sides unconditionally;
it is commutative whenever scalar addition is commutative, and associative
whenever scalar addition is associative — each fact under exactly its own
hypothesis. -/
theorem C3_add_elementwise {T U : Type} [Add T] (x y z : TypedSideOffsets2D T U) :
    ((x + y).top = x.top + y.top ∧ (x + y).right = x.right + y.right ∧
     (x + y).bottom = x.bottom + y.bottom ∧ (x + y).left = x.left + y.left) ∧
    ((∀ a b : T, a + b = b + a) → x + y = y + x) ∧
    ((∀ a b c : T, a + b + c = a + (b + c)) → x + y + z = x + (y + z)) := by
  refine ⟨⟨rfl, rfl, rfl, rfl⟩, ?_, ?_⟩
  · intro hcomm
    rw [TypedSideOffsets2D.ext_iff4]
    exact ⟨hcomm x.top y.top, hcomm x.right y.right, hcomm x.bottom y.bottom,
      hcomm x.left y.left⟩
  · intro hassoc
    rw [TypedSideOffsets2D.ext_iff4]
    exact ⟨hassoc x.top y.top z.top, hassoc x.right y.right z.right,
      hassoc x.bottom y.bottom z.bottom, hassoc x.left y.left z.left⟩

/-- Witness for C3 at concrete `Nat` aggregates, discharging the scalar
commutativity and associativity hypotheses. -/
theorem C3_add_elementwise_witness :
    ((⟨10, 20, 30, 40⟩ + ⟨1, 1, 1, 1⟩ : TypedSideOffsets2D Nat Unit).top = 10 + 1 ∧
     (⟨10, 20, 30, 40⟩ + ⟨1, 1, 1, 1⟩ : TypedSideOffsets2D Nat Unit).right = 20 + 1 ∧
     (⟨10, 20, 30, 40⟩ + ⟨1, 1, 1, 1⟩ : TypedSideOffsets2D Nat Unit).bottom = 30 + 1 ∧
     (⟨10, 20, 30, 40⟩ + ⟨1, 1, 1, 1⟩ : TypedSideOffsets2D Nat Unit).left = 40 + 1) ∧
    ((⟨10, 20, 30, 40⟩ + ⟨1, 1, 1, 1⟩ : TypedSideOffsets2D Nat Unit) =
       ⟨1, 1, 1, 1⟩ + ⟨10, 20, 30, 40⟩) ∧
    ((⟨10, 20, 30, 40⟩ + ⟨1, 1, 1, 1⟩ + ⟨2, 3, 4, 5⟩ : TypedSideOffsets2D Nat Unit) =
       ⟨10, 20, 30, 40⟩ + (⟨1, 1, 1, 1⟩ + ⟨2, 3, 4, 5⟩)) :=
  ⟨(C3_add_elementwise ⟨10, 20, 30, 40⟩ ⟨1, 1, 1, 1⟩ ⟨2, 3, 4, 5⟩).1,
   (C3_add_elementwise ⟨10, 20, 30, 40⟩ ⟨1, 1, 1, 1⟩ ⟨2, 3, 4, 5⟩).2.1
     (fun a b => Nat.add_comm a b),
   (C3_add_elementwise ⟨10, 20, 30, 40⟩ ⟨1, 1, 1, 1⟩ ⟨2, 3, 4, 5⟩).2.2
     (fun a b c => Nat.add_assoc a b c)⟩

/-- C4: `new_all_same(v)` equals `new(v, v, v, v)`: all four sides hold the
same scalar value, for raw-scalar and for `Length` input alike. -/
theorem C4_new_all_same {T U : Type} (v : T) (lv : Length T U) :
    (TypedSideOffsets2D.new_all_same (Length.new v) : TypedSideOffsets2D T U) =
      TypedSideOffsets2D.new (Length.new v) (Length.new v) (Length.new v)
        (Length.new v) ∧
    TypedSideOffsets2D.new_all_same lv = TypedSideOffsets2D.new lv lv lv lv ∧
    (TypedSideOffsets2D.new_all_same lv).top = lv.get ∧
    (TypedSideOffsets2D.new_all_same lv).right = lv.get ∧
    (TypedSideOffsets2D.new_all_same lv).bottom = lv.get ∧
    (TypedSideOffsets2D.new_all_same lv).left = lv.get :=
  ⟨rfl, rfl, rfl, rfl, rfl, rfl⟩

/-- C5: `zero()` equals `new(0, 0, 0, 0)` for the scalar type's zero value, and
all four of its fields equal that zero. -/
theorem C5_zero {T : Type} (U : Type) [Zero T] :
    (TypedSideOffsets2D.zero : TypedSideOffsets2D T U) =
      TypedSideOffsets2D.new (Length.new 0) (Length.new 0) (Length.new 0)
        (Length.new 0) ∧
    (TypedSideOffsets2D.zero : TypedSideOffsets2D T U).top = 0 ∧
    (TypedSideOffsets2D.zero : TypedSideOffsets2D T U).right = 0 ∧
    (TypedSideOffsets2D.zero : TypedSideOffsets2D T U).bottom = 0 ∧
    (TypedSideOffsets2D.zero : TypedSideOffsets2D T U).left = 0 :=
  ⟨rfl, rfl, rfl, rfl, rfl⟩

/-- C6: the typed accessors round-trip with the raw fields:
`X.top_typed().get() = X.top` and similarly for the other three sides. -/
theorem C6_typed_roundtrip {T U : Type} (x : TypedSideOffsets2D T U) :
    x.top_typed.get = x.top ∧ x.right_typed.get = x.right ∧
    x.bottom_typed.get = x.bottom ∧ x.left_typed.get = x.left :=
  ⟨rfl, rfl, rfl, rfl⟩

/-- C7: the debug rendering prints the four fields in the order
(top, right, bottom, left); rendering `new(1, 2, 3, 4)` yields the literal
string `(1,2,3,4)`. -/
theorem C7_debug_format :
    (∀ (T U : Type) (dbg : T → String) (x : TypedSideOffsets2D T U),
      TypedSideOffsets2D.fmtDebug dbg x =
        "(" ++ dbg x.top ++ "," ++ dbg x.right ++ "," ++ dbg x.bottom ++ "," ++
          dbg x.left ++ ")") ∧
    TypedSideOffsets2D.fmtDebug (fun n : Nat => toString n)
      (TypedSideOffsets2D.new (U := Unit) (Length.new 1) (Length.new 2)
        (Length.new 3) (Length.new 4)) = "(1,2,3,4)" :=
  ⟨fun _ _ _ _ => rfl, by decide⟩

/-- C8: the typed sums round-trip with the raw sums:
`X.horizontal_typed().get() = X.horizontal()` and
`X.vertical_typed().get() = X.vertical()`. -/
theorem C8_typed_sums {T U : Type} [Add T] (x : TypedSideOffsets2D T U) :
    x.horizontal_typed.get = x.horizontal ∧ x.vertical_typed.get = x.vertical :=
  ⟨rfl, rfl⟩

/-- C9: every operation is total: over a possibly faulting scalar addition
(the fault modelled as `none`), aggregate addition faults exactly when one of
the four scalar additions faults, never otherwise; over a total scalar
addition `g` it always succeeds with the elementwise sums; and `horizontal`
and `vertical` return the scalar addition's own result unmodified. All other
operations (`new`, `new_all_same`, `zero`, the typed accessors) are total
functions by construction and perform no scalar addition at all. -/
theorem C9_totality {T U : Type} (addf : T → T → Option T) (g : T → T → T)
    (x y : TypedSideOffsets2D T U) :
    (TypedSideOffsets2D.addChecked addf x y = none ↔
      (addf x.top y.top = none ∨ addf x.right y.right = none ∨
       addf x.bottom y.bottom = none ∨ addf x.left y.left = none)) ∧
    TypedSideOffsets2D.addChecked (fun a b => some (g a b)) x y =
      some ⟨g x.top y.top, g x.right y.right, g x.bottom y.bottom,
        g x.left y.left⟩ ∧
    TypedSideOffsets2D.horizontalChecked addf x = addf x.left x.right ∧
    TypedSideOffsets2D.verticalChecked addf x = addf x.top x.bottom := by
  refine ⟨?_, rfl, rfl, rfl⟩
  cases h1 : addf x.top y.top <;>
    cases h2 : addf x.right y.right <;>
      cases h3 : addf x.bottom y.bottom <;>
        cases h4 : addf x.left y.left <;>
          simp [TypedSideOffsets2D.addChecked, h1, h2, h3, h4]

/-- C10: `zero()` is an identity element for aggregate addition whenever the
scalar zero is an identity for scalar addition: `X + zero() = X` and
`zero() + X = X`. -/
theorem C10_zero_identity {T U : Type} [Add T] [Zero T]
    (hr : ∀ a : T, a + 0 = a) (hl : ∀ a : T, 0 + a = a)
    (x : TypedSideOffsets2D T U) :
    x + TypedSideOffsets2D.zero = x ∧ TypedSideOffsets2D.zero + x = x := by
  constructor
  · rw [TypedSideOffsets2D.ext_iff4]
    exact ⟨hr x.top, hr x.right, hr x.bottom, hr x.left⟩
  · rw [TypedSideOffsets2D.ext_iff4]
    exact ⟨hl x.top, hl x.right, hl x.bottom, hl x.left⟩

/-- Witness for C10 at a concrete `Nat` aggregate. -/
theorem C10_zero_identity_witness :
    ((⟨10, 20, 30, 40⟩ : TypedSideOffsets2D Nat Unit) + TypedSideOffsets2D.zero =
       ⟨10, 20, 30, 40⟩ ∧
     TypedSideOffsets2D.zero + (⟨10, 20, 30, 40⟩ : TypedSideOffsets2D Nat Unit) =
       ⟨10, 20, 30, 40⟩) :=
  C10_zero_identity (fun a => Nat.add_zero a) (fun a => Nat.zero_add a)
    ⟨10, 20, 30, 40⟩
